import Mathlib

/-!
Shallow embedding of the agentic-framework core of the repository
(file `elizao_agentic_framework.py`): the agent memory with its bounded
logs, the think/act/observe lifecycle engine `execute_task`, the
orchestrator's FIFO task queue, type-based routing, agent construction
and registration, and the continuous scheduling loop.  Python dicts are
modelled as association lists with CPython insertion-order update
semantics; timestamps are threaded explicitly as strings.
-/

namespace Elizao

/-- Model of a Python value as it appears in this framework's payload
dicts (JSON-like: None, bool, int, str, list, dict). -/
inductive PyVal where
  | pynone : PyVal
  | pybool : Bool → PyVal
  | pyint : Int → PyVal
  | pystr : String → PyVal
  | pylist : List PyVal → PyVal
  | pydict : List (String × PyVal) → PyVal

/-- Association-list lookup: first entry whose key matches.  This models
a Python dict read (dicts keep keys unique, so first match is the match). -/
def alist_get {α β : Type} [DecidableEq α] : List (α × β) → α → Option β
  | [], _ => none
  | (k, v) :: rest, k0 => if k = k0 then some v else alist_get rest k0

/-- Python dict single-key assignment: replace the value in place if the
key is present (keeping its position), otherwise append the new pair. -/
def set_key : List (String × PyVal) → String → PyVal → List (String × PyVal)
  | [], k, v => [(k, v)]
  | (k1, v1) :: rest, k, v =>
      if k1 = k then (k, v) :: rest else (k1, v1) :: set_key rest k v

/-- Python `dict.update(new)`: key-wise overwrite-or-insert, iterating the
entries of `new` in order. -/
def dict_update (d new : List (String × PyVal)) : List (String × PyVal) :=
  new.foldl (fun acc kv => set_key acc kv.1 kv.2) d

/-- Lookup in a string-keyed Python dict. -/
def dict_lookup (d : List (String × PyVal)) (k : String) : Option PyVal :=
  alist_get d k

/-- Bounded-log append from `BaseAgent._update_memory`: append the entry,
then if the length exceeds the capacity keep only the last `cap` entries
(`self.memory.recent_actions[-50:]` / `context_window[-20:]`). -/
def record_bounded {α : Type} (cap : Nat) (log : List α) (e : α) : List α :=
  if cap < (log ++ [e]).length then (log ++ [e]).rtake cap else log ++ [e]

/-- Agent states (`AgentState` enum). -/
inductive AgentState where
  | idle
  | thinking
  | acting
  | observing
  | learning
deriving DecidableEq

/-- Agent roles (`AgentRole` enum). -/
inductive AgentRole where
  | business_analyst
  | lead_manager
  | conversion_specialist
  | follow_up_coordinator
  | insight_generator
deriving DecidableEq

/-- The `AgentTask` dataclass. -/
structure AgentTask where
  id : String
  type : String
  priority : Int
  description : String
  data : List (String × PyVal)
  deadline : Option String
  assigned_agent : Option String
  status : String
  created_at : String

/-- The `AgentMemory` dataclass. -/
structure AgentMemory where
  recent_actions : List PyVal
  learned_patterns : List (String × PyVal)
  performance_metrics : List (String × PyVal)
  context_window : List PyVal
  last_updated : String

/-- The memory a `BaseAgent` is constructed with: empty logs, empty
mappings, `last_updated` stamped with the construction time. -/
def initial_memory (now : String) : AgentMemory :=
  ⟨[], [], [], [], now⟩

/-- One cycle's inputs to `BaseAgent._update_memory`: the task, the three
phase outputs (dicts), and the timestamp taken during the update. -/
structure CycleInput where
  task : AgentTask
  thoughts : List (String × PyVal)
  result : List (String × PyVal)
  learning : List (String × PyVal)
  now : String

/-- Serialisation of an optional string, as `dataclasses.asdict` leaves it. -/
def opt_str : Option String → PyVal
  | none => PyVal.pynone
  | some s => PyVal.pystr s

/-- The `asdict` image of an `AgentTask`. -/
def task_asdict (t : AgentTask) : PyVal :=
  PyVal.pydict [("id", .pystr t.id), ("type", .pystr t.type),
    ("priority", .pyint t.priority), ("description", .pystr t.description),
    ("data", .pydict t.data), ("deadline", opt_str t.deadline),
    ("assigned_agent", opt_str t.assigned_agent), ("status", .pystr t.status),
    ("created_at", .pystr t.created_at)]

/-- The `asdict` image of an `AgentMemory`. -/
def memory_asdict (m : AgentMemory) : PyVal :=
  PyVal.pydict [("recent_actions", .pylist m.recent_actions),
    ("learned_patterns", .pydict m.learned_patterns),
    ("performance_metrics", .pydict m.performance_metrics),
    ("context_window", .pylist m.context_window),
    ("last_updated", .pystr m.last_updated)]

/-- The entry `_update_memory` appends to `recent_actions`. -/
def action_entry (ci : CycleInput) : PyVal :=
  PyVal.pydict [("task_id", .pystr ci.task.id), ("thoughts", .pydict ci.thoughts),
    ("result", .pydict ci.result), ("learning", .pydict ci.learning),
    ("timestamp", .pystr ci.now)]

/-- The entry `_update_memory` appends to `context_window`. -/
def context_entry (ci : CycleInput) : PyVal :=
  PyVal.pydict [("task", task_asdict ci.task), ("result", .pydict ci.result),
    ("timestamp", .pystr ci.now)]

/-- Extraction of the `patterns` map from the observe output: the code
guards with `if learning.get('patterns'):`, so a missing key or an empty
dict (both falsy) skip the merge; a non-empty dict value is merged. -/
def patterns_of (learning : List (String × PyVal)) : Option (List (String × PyVal)) :=
  match dict_lookup learning "patterns" with
  | some (.pydict kvs) => if kvs.isEmpty then none else some kvs
  | _ => none

/-- Extraction of the `metrics` map from the observe output, guarded by
`if learning.get('metrics'):` exactly like `patterns_of`. -/
def metrics_of (learning : List (String × PyVal)) : Option (List (String × PyVal)) :=
  match dict_lookup learning "metrics" with
  | some (.pydict kvs) => if kvs.isEmpty then none else some kvs
  | _ => none

/-- `BaseAgent._update_memory`: append to `recent_actions` with eviction
at 50, merge `patterns` and `metrics` when present and truthy, append to
`context_window` with eviction at 20, and stamp `last_updated`. -/
def update_memory (mem : AgentMemory) (ci : CycleInput) : AgentMemory :=
  { recent_actions := record_bounded 50 mem.recent_actions (action_entry ci)
    learned_patterns :=
      match patterns_of ci.learning with
      | some pats => dict_update mem.learned_patterns pats
      | none => mem.learned_patterns
    performance_metrics :=
      match metrics_of ci.learning with
      | some mets => dict_update mem.performance_metrics mets
      | none => mem.performance_metrics
    context_window := record_bounded 20 mem.context_window (context_entry ci)
    last_updated := ci.now }

/-- The role-specific phase bodies an agent supplies (`think`, `act`,
`observe` overrides).  Each phase either returns a dict or raises, which
the embedding renders as `Except` with the exception message. -/
structure AgentBehavior where
  think : List (String × PyVal) → Except String (List (String × PyVal))
  act : List (String × PyVal) → Except String (List (String × PyVal))
  observe : List (String × PyVal) → Except String (List (String × PyVal))

/-- The context dict `execute_task` passes to `think`: the task as a dict,
the memory as a dict, and the last 10 entries of the context window
(`context_window[-10:] if context_window else []`, which equals the last
10 entries in every case). -/
def think_input (task : AgentTask) (mem : AgentMemory) : List (String × PyVal) :=
  [("task", task_asdict task), ("memory", memory_asdict mem),
   ("context", .pylist (mem.context_window.rtake 10))]

/-- The dict returned from the `except` handler of `execute_task`:
`{'error': str(e), 'success': False}` — and nothing else. -/
def fail_outcome (e : String) : List (String × PyVal) :=
  [("error", .pystr e), ("success", .pybool false)]

/-- The dict returned on the fully successful path of `execute_task`. -/
def success_outcome (agent_id : String) (task : AgentTask)
    (thoughts result learning : List (String × PyVal)) : List (String × PyVal) :=
  [("task_id", .pystr task.id), ("agent_id", .pystr agent_id),
   ("thoughts", .pydict thoughts), ("actions", .pydict result),
   ("learning", .pydict learning),
   ("success", (dict_lookup result "success").getD (.pybool false))]

/-- Everything observable about one `execute_task` call: the returned
dict, the memory afterwards, the agent state afterwards, and the sequence
of assignments made to `self.state` during the call. -/
structure ExecResult where
  outcome : List (String × PyVal)
  memory : AgentMemory
  state : AgentState
  states_entered : List AgentState

/-- `BaseAgent.execute_task`: set state THINKING and run `think`; set
ACTING and run `act`; set OBSERVING and run `observe`; update memory and
set IDLE, returning the success outcome.  Any phase raising lands in the
`except` handler, which only sets state IDLE and returns the failure
outcome — the function itself never raises, and memory is untouched on
that path. -/
def execute_task (agent_id : String) (beh : AgentBehavior) (task : AgentTask)
    (mem : AgentMemory) (now : String) : ExecResult :=
  match beh.think (think_input task mem) with
  | .error e => ⟨fail_outcome e, mem, .idle, [.thinking, .idle]⟩
  | .ok thoughts =>
    match beh.act thoughts with
    | .error e => ⟨fail_outcome e, mem, .idle, [.thinking, .acting, .idle]⟩
    | .ok result =>
      match beh.observe result with
      | .error e =>
          ⟨fail_outcome e, mem, .idle, [.thinking, .acting, .observing, .idle]⟩
      | .ok learning =>
          ⟨success_outcome agent_id task thoughts result learning,
           update_memory mem ⟨task, thoughts, result, learning, now⟩,
           .idle, [.thinking, .acting, .observing, .idle]⟩

/-- Whether the whole think/act/observe chain of one call succeeds. -/
def phases_all_ok (beh : AgentBehavior) (task : AgentTask) (mem : AgentMemory) : Bool :=
  match beh.think (think_input task mem) with
  | .error _ => false
  | .ok thoughts =>
    match beh.act thoughts with
    | .error _ => false
    | .ok result =>
      match beh.observe result with
      | .error _ => false
      | .ok _ => true

/-- The message of the first phase exception of one call, if any. -/
def first_phase_error (beh : AgentBehavior) (task : AgentTask) (mem : AgentMemory) :
    Option String :=
  match beh.think (think_input task mem) with
  | .error e => some e
  | .ok thoughts =>
    match beh.act thoughts with
    | .error e => some e
    | .ok result =>
      match beh.observe result with
      | .error e => some e
      | .ok _ => none

/-- ASCII lowering of one character, as CPython's `str.lower` acts on the
ASCII task-type strings involved here. -/
def lower_char (c : Char) : Char :=
  if 'A' ≤ c ∧ c ≤ 'Z' then Char.ofNat (c.toNat + 32) else c

/-- `task.type.lower()` for ASCII strings. -/
def lower_string (s : String) : String :=
  String.mk (s.data.map lower_char)

/-- Python's substring test `pat in s` on character lists. -/
def list_contains_sub (pat : List Char) : List Char → Bool
  | [] => pat.isEmpty
  | c :: rest => List.isPrefixOf pat (c :: rest) || list_contains_sub pat rest

/-- Python's substring test `pat in s` on strings. -/
def str_contains_sub (s pat : String) : Bool :=
  list_contains_sub pat.data s.data

/-- Registry entry for an agent: its stable id and role, as constructed
by `BusinessAnalystAgent()` / `LeadManagerAgent()`. -/
structure AgentInfo where
  agent_id : String
  role : AgentRole
deriving DecidableEq

/-- The business-analyst agent (`business_analyst_001`). -/
def business_analyst_info : AgentInfo :=
  ⟨"business_analyst_001", .business_analyst⟩

/-- The lead-manager agent (`lead_manager_001`). -/
def lead_manager_info : AgentInfo :=
  ⟨"lead_manager_001", .lead_manager⟩

/-- The orchestrator's agent registry as built in
`AgentOrchestrator.__init__`: exactly the two role-keyed entries. -/
def orchestrator_registry : List (AgentRole × AgentInfo) :=
  [(.business_analyst, business_analyst_info), (.lead_manager, lead_manager_info)]

/-- Lookup `self.agents[role]` in the orchestrator registry. -/
def registry_lookup (r : AgentRole) : Option AgentInfo :=
  alist_get orchestrator_registry r

/-- `AgentOrchestrator._select_agent_for_task`: lowercase the task type;
containing "analysis" or "brief" selects the business analyst, otherwise
containing "lead" or "follow" selects the lead manager, otherwise the
business analyst is the default. -/
def select_agent_for_task (t : AgentTask) : Option AgentInfo :=
  if str_contains_sub (lower_string t.type) "analysis" ||
      str_contains_sub (lower_string t.type) "brief" then
    registry_lookup .business_analyst
  else if str_contains_sub (lower_string t.type) "lead" ||
      str_contains_sub (lower_string t.type) "follow" then
    registry_lookup .lead_manager
  else
    registry_lookup .business_analyst

/-- `AgentOrchestrator.add_task`: append the task to the queue tail. -/
def add_task (queue : List AgentTask) (t : AgentTask) : List AgentTask :=
  queue ++ [t]

/-- Observable result of one `process_tasks` drain: which task went to
which agent in which order, which tasks hit the "No agent available"
warning branch, and what remains queued when the loop exits. -/
structure DrainResult where
  executed : List (AgentTask × AgentInfo)
  warned : List AgentTask
  remaining : List AgentTask

/-- `AgentOrchestrator.process_tasks`: while the queue is non-empty, pop
the head, select an agent, and either hand the task to that agent's
`execute_task` or log the "No agent available" warning; the loop exits
only when the queue is empty. -/
def process_tasks : List AgentTask → DrainResult
  | [] => ⟨[], [], []⟩
  | t :: rest =>
    let r := process_tasks rest
    match select_agent_for_task t with
    | some a => ⟨(t, a) :: r.executed, r.warned, r.remaining⟩
    | none => ⟨r.executed, t :: r.warned, r.remaining⟩

/-- `BaseAgent._initialize_dependencies`: the AI client is created first,
then the sheets manager, inside one `try`; an exception is caught and
only logged.  The pair records what got assigned: if creating the AI
client raises, neither field is assigned; if the sheets manager raises,
the AI client was already assigned. -/
def init_dependencies (ai_result sheets_result : Except String String) :
    Option String × Option String :=
  match ai_result with
  | .error _ => (none, none)
  | .ok ai =>
    match sheets_result with
    | .error _ => (some ai, none)
    | .ok sh => (some ai, some sh)

/-- An agent as `BaseAgent.__init__` leaves it: id, role, IDLE state,
fresh memory, and whatever dependencies survived wiring. -/
structure ConstructedAgent where
  agent_id : String
  role : AgentRole
  state : AgentState
  memory : AgentMemory
  ai_client : Option String
  sheets_manager : Option String

/-- `BaseAgent.__init__`: construction always completes — a wiring
failure is caught inside `_initialize_dependencies`, leaving the client
fields at `None`. -/
def init_agent (aid : String) (role : AgentRole)
    (ai_result sheets_result : Except String String) (now : String) : ConstructedAgent :=
  ⟨aid, role, .idle, initial_memory now,
   (init_dependencies ai_result sheets_result).1,
   (init_dependencies ai_result sheets_result).2⟩

/-- `AgentOrchestrator.__init__`: unconditionally construct and register
both agents, whatever happened to their dependency wiring. -/
def orchestrator_init (ba_ai ba_sheets lm_ai lm_sheets : Except String String)
    (now : String) : List (AgentRole × ConstructedAgent) :=
  [(.business_analyst,
    init_agent "business_analyst_001" .business_analyst ba_ai ba_sheets now),
   (.lead_manager,
    init_agent "lead_manager_001" .lead_manager lm_ai lm_sheets now)]

/-- What one iteration of `run_continuous_cycle` encounters: either the
body runs without an escaping exception, or some exception escapes
`process_tasks`/`sleep` and is caught by the loop's handler. -/
inductive LoopEvent where
  | ok
  | crash : String → LoopEvent

/-- How an iteration may end: continue looping or leave the loop.  The
source's `while True` body has no `break`/`return` and its handler
swallows every exception, so the source only ever continues. -/
inductive LoopControl where
  | cont
  | exit
deriving DecidableEq

/-- One iteration of `run_continuous_cycle`: on a clean drain, sleep the
configured interval; on an escaping exception, log it and sleep the fixed
60 seconds.  Both branches continue the loop. -/
def loop_body (interval : Nat) : LoopEvent → Nat × LoopControl
  | .ok => (interval, .cont)
  | .crash _ => (60, .cont)

/-- The sleep the loop performs after one iteration. -/
def iteration_sleep (interval : Nat) (ev : LoopEvent) : Nat :=
  (loop_body interval ev).1

/-- The sleeps performed by the first `n` iterations of
`run_continuous_cycle`, given the per-iteration events. -/
def run_iterations (interval : Nat) (events : Nat → LoopEvent) : Nat → List Nat
  | 0 => []
  | n + 1 => run_iterations interval events n ++ [iteration_sleep interval (events n)]

/-- Taking the last `k` of a list whose front part was already clipped to
its last `k` elements gives the same as clipping the whole list. -/
lemma rtake_append_rtake {α : Type} (k : Nat) (xs ys : List α) :
    ((xs.rtake k) ++ ys).rtake k = (xs ++ ys).rtake k := by
  simp only [List.rtake_eq_reverse_take_reverse, List.reverse_append,
    List.reverse_reverse]
  congr 1
  rw [List.take_append_eq_append_take, List.take_append_eq_append_take,
    List.take_take, Nat.min_eq_left (Nat.sub_le _ _)]

/-- `record_bounded` always equals "append, then keep the last `cap`":
when the appended list is within capacity, keeping the last `cap` is the
identity. -/
lemma record_bounded_eq {α : Type} (cap : Nat) (log : List α) (e : α) :
    record_bounded cap log e = (log ++ [e]).rtake cap := by
  unfold record_bounded
  split
  · rfl
  · next h =>
      rw [List.rtake, Nat.sub_eq_zero_of_le (Nat.le_of_not_lt h), List.drop_zero]

/-- A bounded-log append never leaves more than `cap` entries. -/
lemma record_bounded_length_le {α : Type} (cap : Nat) (log : List α) (e : α) :
    (record_bounded cap log e).length ≤ cap := by
  unfold record_bounded
  split
  · rw [List.rtake, List.length_drop]
    omega
  · next h => omega

/-- Folding bounded appends over a sequence of entries, starting within
capacity, retains exactly the last `cap` entries of start-plus-sequence. -/
lemma foldl_record_bounded {α : Type} (cap : Nat) (es : List α) :
    ∀ log : List α, log.length ≤ cap →
      es.foldl (record_bounded cap) log = (log ++ es).rtake cap := by
  induction es with
  | nil =>
      intro log h
      rw [List.foldl_nil, List.append_nil, List.rtake,
        Nat.sub_eq_zero_of_le h, List.drop_zero]
  | cons e es ih =>
      intro log h
      rw [List.foldl_cons]
      rw [ih _ (record_bounded_length_le cap log e), record_bounded_eq,
        rtake_append_rtake]
      simp

/-- Folding `update_memory` acts on `recent_actions` as folding the
50-bounded append of each cycle's action entry. -/
lemma foldl_update_recent (inputs : List CycleInput) :
    ∀ m : AgentMemory,
      (inputs.foldl update_memory m).recent_actions =
        (inputs.map action_entry).foldl (record_bounded 50) m.recent_actions := by
  induction inputs with
  | nil => intro m; rfl
  | cons ci inputs ih =>
      intro m
      rw [List.foldl_cons, List.map_cons, List.foldl_cons, ih]
      rfl

/-- Folding `update_memory` acts on `context_window` as folding the
20-bounded append of each cycle's context entry. -/
lemma foldl_update_context (inputs : List CycleInput) :
    ∀ m : AgentMemory,
      (inputs.foldl update_memory m).context_window =
        (inputs.map context_entry).foldl (record_bounded 20) m.context_window := by
  induction inputs with
  | nil => intro m; rfl
  | cons ci inputs ih =>
      intro m
      rw [List.foldl_cons, List.map_cons, List.foldl_cons, ih]
      rfl

/-- Lookup after a single-key assignment: the assigned key reads the new
value, every other key is untouched. -/
lemma alist_get_set_key (d : List (String × PyVal)) (k0 : String) (v0 : PyVal)
    (k : String) :
    alist_get (set_key d k0 v0) k =
      if k0 = k then some v0 else alist_get d k := by
  induction d with
  | nil =>
      by_cases h : k0 = k
      · simp [set_key, alist_get, h]
      · simp [set_key, alist_get, h]
  | cons kv rest ih =>
      obtain ⟨k1, v1⟩ := kv
      by_cases h1 : k1 = k0
      · subst h1
        by_cases h : k1 = k
        · simp [set_key, alist_get, h]
        · simp [set_key, alist_get, h]
      · by_cases h : k1 = k
        · subst h
          have : ¬ k0 = k1 := fun hc => h1 hc.symm
          simp [set_key, alist_get, h1, this]
        · simp [set_key, alist_get, h1, h, ih]

/-- A key absent from an association list looks up to nothing. -/
lemma alist_get_eq_none_of_not_mem (d : List (String × PyVal)) (k : String)
    (h : k ∉ d.map Prod.fst) : alist_get d k = none := by
  induction d with
  | nil => rfl
  | cons kv rest ih =>
      obtain ⟨k1, v1⟩ := kv
      simp only [List.map_cons, List.mem_cons, not_or] at h
      have hne : ¬ k1 = k := fun hc => h.1 hc.symm
      simpa [alist_get, hne] using ih h.2

/-- Lookup after a `dict.update`: keys of the update map read their new
value, every other key falls through to the original dict — key-wise
overwrite-or-insert, not accumulation. -/
lemma dict_update_lookup (new : List (String × PyVal)) :
    ∀ d : List (String × PyVal), (new.map Prod.fst).Nodup → ∀ k : String,
      dict_lookup (dict_update d new) k =
        match dict_lookup new k with
        | some v => some v
        | none => dict_lookup d k := by
  induction new with
  | nil =>
      intro d _ k
      rfl
  | cons kv rest ih =>
      intro d hnd k
      obtain ⟨k0, v0⟩ := kv
      simp only [List.map_cons, List.nodup_cons] at hnd
      have step : dict_update d ((k0, v0) :: rest) =
          dict_update (set_key d k0 v0) rest := rfl
      rw [step, ih (set_key d k0 v0) hnd.2 k]
      by_cases h : k0 = k
      · subst h
        have hrest : alist_get rest k0 = none :=
          alist_get_eq_none_of_not_mem rest k0 hnd.1
        simp [dict_lookup, alist_get, hrest, alist_get_set_key]
      · simp [dict_lookup, alist_get, h, alist_get_set_key]

/-- A concrete task of a given id, type and priority, shaped like the
test task in `main`. -/
def mk_task (tid ty : String) (pr : Int) : AgentTask :=
  ⟨tid, ty, pr, "test task", [], none, none, "pending", "2024-01-01T00:00:00"⟩

/-- The test task from `main`. -/
def sample_task : AgentTask :=
  mk_task "test_001" "business_analysis" 1

/-- A behavior whose every phase raises. -/
def failing_behavior : AgentBehavior :=
  ⟨fun _ => .error "boom", fun _ => .error "boom", fun _ => .error "boom"⟩

/-- A behavior whose phases all return, shaped like the concrete agents'
successful outputs. -/
def ok_behavior : AgentBehavior :=
  ⟨fun _ => .ok [("insights", .pylist [])],
   fun _ => .ok [("success", .pybool true)],
   fun _ => .ok [("metrics", .pydict [("success_rate", .pyint 1)]),
                 ("patterns", .pydict [("follow_up_frequency", .pystr "daily")])]⟩

/-- A concrete memory-update cycle input. -/
def sample_cycle (now : String) : CycleInput :=
  ⟨sample_task, [], [("success", .pybool true)], [], now⟩

/-- A cycle whose observe output carries the patterns map x:1 and the
metrics map m:1. -/
def cycle_x1 : CycleInput :=
  ⟨sample_task, [], [],
   [("patterns", .pydict [("x", .pyint 1)]), ("metrics", .pydict [("m", .pyint 1)])],
   "t1"⟩

/-- A cycle whose observe output carries the patterns map x:2, y:3 and
the metrics map m:2, n:3. -/
def cycle_x2y3 : CycleInput :=
  ⟨sample_task, [], [],
   [("patterns", .pydict [("x", .pyint 2), ("y", .pyint 3)]),
    ("metrics", .pydict [("m", .pyint 2), ("n", .pyint 3)])],
   "t2"⟩

/-- Claim C1 is false on the code: with a think phase that raises,
`execute_task` returns the failure outcome while the agent's memory is
exactly the memory before the call — `recent_actions` is still empty, so
no attempt and no error marker were recorded. -/
theorem c1_counterexample :
    (execute_task "business_analyst_001" failing_behavior sample_task
        (initial_memory "t0") "t1").outcome = fail_outcome "boom" ∧
    (execute_task "business_analyst_001" failing_behavior sample_task
        (initial_memory "t0") "t1").memory = initial_memory "t0" ∧
    (execute_task "business_analyst_001" failing_behavior sample_task
        (initial_memory "t0") "t1").memory.recent_actions = [] :=
  ⟨rfl, rfl, rfl⟩

/-- Claim C1 (amended): for every task and every phase error raised
during `execute_task`, the engine returns the failure outcome WITHOUT
updating the agent's Memory at all — no attempt and no error marker are
recorded; Memory is updated only on the fully successful cycle. -/
theorem c1_no_memory_update_on_phase_error (aid : String) (beh : AgentBehavior)
    (task : AgentTask) (mem : AgentMemory) (now : String)
    (h : phases_all_ok beh task mem = false) :
    (execute_task aid beh task mem now).memory = mem ∧
    dict_lookup (execute_task aid beh task mem now).outcome "success" =
      some (.pybool false) := by
  cases hth : beh.think (think_input task mem) with
  | error e => simp [execute_task, hth, fail_outcome, dict_lookup, alist_get]
  | ok thoughts =>
    cases hact : beh.act thoughts with
    | error e => simp [execute_task, hth, hact, fail_outcome, dict_lookup, alist_get]
    | ok result =>
      cases hobs : beh.observe result with
      | error e =>
          simp [execute_task, hth, hact, hobs, fail_outcome, dict_lookup, alist_get]
      | ok learning =>
          exfalso
          unfold phases_all_ok at h
          simp only [hth, hact, hobs] at h
          exact Bool.noConfusion h

/-- Witness for the amended C1 at the concrete failing behavior. -/
theorem c1_witness :
    phases_all_ok failing_behavior sample_task (initial_memory "t0") = false ∧
    (execute_task "business_analyst_001" failing_behavior sample_task
        (initial_memory "t0") "t1").memory = initial_memory "t0" ∧
    dict_lookup (execute_task "business_analyst_001" failing_behavior sample_task
        (initial_memory "t0") "t1").outcome "success" = some (.pybool false) :=
  ⟨rfl,
   (c1_no_memory_update_on_phase_error "business_analyst_001" failing_behavior
     sample_task (initial_memory "t0") "t1" rfl).1,
   (c1_no_memory_update_on_phase_error "business_analyst_001" failing_behavior
     sample_task (initial_memory "t0") "t1" rfl).2⟩

/-- Claim C2 is false on the code in its outcome-contents part: the
failure outcome returned when a phase raises is exactly
the two-key dict with error and success — it contains neither the task id
nor the agent id. -/
theorem c2_counterexample :
    (execute_task "business_analyst_001" failing_behavior sample_task
        (initial_memory "t0") "t1").outcome =
      [("error", PyVal.pystr "boom"), ("success", PyVal.pybool false)] ∧
    dict_lookup (execute_task "business_analyst_001" failing_behavior sample_task
        (initial_memory "t0") "t1").outcome "task_id" = none ∧
    dict_lookup (execute_task "business_analyst_001" failing_behavior sample_task
        (initial_memory "t0") "t1").outcome "agent_id" = none :=
  ⟨rfl, rfl, rfl⟩

/-- Claim C2 (amended): `execute_task` never raises — in the embedding it
is a total function over arbitrary phase behaviors — and every phase
failure is converted into the returned failure outcome, a dict carrying
success false and the error message of the first phase exception (and
nothing else: no task id, no agent id). -/
theorem c2_failure_outcome (aid : String) (beh : AgentBehavior) (task : AgentTask)
    (mem : AgentMemory) (now : String) (e : String)
    (h : first_phase_error beh task mem = some e) :
    (execute_task aid beh task mem now).outcome = fail_outcome e ∧
    dict_lookup (execute_task aid beh task mem now).outcome "success" =
      some (.pybool false) ∧
    dict_lookup (execute_task aid beh task mem now).outcome "error" =
      some (.pystr e) := by
  cases hth : beh.think (think_input task mem) with
  | error e1 =>
      unfold first_phase_error at h
      simp only [hth, Option.some.injEq] at h
      subst h
      simp [execute_task, hth, fail_outcome, dict_lookup, alist_get]
  | ok thoughts =>
    cases hact : beh.act thoughts with
    | error e1 =>
        unfold first_phase_error at h
        simp only [hth, hact, Option.some.injEq] at h
        subst h
        simp [execute_task, hth, hact, fail_outcome, dict_lookup, alist_get]
    | ok result =>
      cases hobs : beh.observe result with
      | error e1 =>
          unfold first_phase_error at h
          simp only [hth, hact, hobs, Option.some.injEq] at h
          subst h
          simp [execute_task, hth, hact, hobs, fail_outcome, dict_lookup, alist_get]
      | ok learning =>
          exfalso
          unfold first_phase_error at h
          simp only [hth, hact, hobs] at h
          exact Option.noConfusion h

/-- Witness for the amended C2 at the concrete failing behavior. -/
theorem c2_witness :
    first_phase_error failing_behavior sample_task (initial_memory "t0") =
      some "boom" ∧
    (execute_task "business_analyst_001" failing_behavior sample_task
        (initial_memory "t0") "t1").outcome = fail_outcome "boom" ∧
    dict_lookup (execute_task "business_analyst_001" failing_behavior sample_task
        (initial_memory "t0") "t1").outcome "error" = some (.pystr "boom") :=
  ⟨rfl,
   (c2_failure_outcome "business_analyst_001" failing_behavior sample_task
     (initial_memory "t0") "t1" "boom" rfl).1,
   (c2_failure_outcome "business_analyst_001" failing_behavior sample_task
     (initial_memory "t0") "t1" "boom" rfl).2.2⟩

/-- Claim C3: over any sequence of memory-update cycles starting from a
fresh memory, `recent_actions` always holds the last 50 entries in
arrival order and `context_window` the last 20; once more than 50
(respectively 20) cycles have run, each log holds exactly its capacity —
the most recent entries, oldest first, the oldest evicted. -/
theorem c3_bounded_logs (inputs : List CycleInput) (now0 : String) :
    (inputs.foldl update_memory (initial_memory now0)).recent_actions =
      (inputs.map action_entry).rtake 50 ∧
    (inputs.foldl update_memory (initial_memory now0)).context_window =
      (inputs.map context_entry).rtake 20 ∧
    (50 < inputs.length →
      (inputs.foldl update_memory (initial_memory now0)).recent_actions =
        (inputs.map action_entry).drop (inputs.length - 50) ∧
      (inputs.foldl update_memory (initial_memory now0)).recent_actions.length = 50) ∧
    (20 < inputs.length →
      (inputs.foldl update_memory (initial_memory now0)).context_window =
        (inputs.map context_entry).drop (inputs.length - 20) ∧
      (inputs.foldl update_memory (initial_memory now0)).context_window.length = 20) := by
  have hra : (inputs.foldl update_memory (initial_memory now0)).recent_actions =
      (inputs.map action_entry).rtake 50 := by
    rw [foldl_update_recent]
    show (inputs.map action_entry).foldl (record_bounded 50) [] = _
    rw [foldl_record_bounded 50 (inputs.map action_entry) [] (by simp),
      List.nil_append]
  have hcw : (inputs.foldl update_memory (initial_memory now0)).context_window =
      (inputs.map context_entry).rtake 20 := by
    rw [foldl_update_context]
    show (inputs.map context_entry).foldl (record_bounded 20) [] = _
    rw [foldl_record_bounded 20 (inputs.map context_entry) [] (by simp),
      List.nil_append]
  refine ⟨hra, hcw, ?_, ?_⟩
  · intro h
    constructor
    · rw [hra, List.rtake, List.length_map]
    · rw [hra, List.rtake, List.length_drop, List.length_map]
      omega
  · intro h
    constructor
    · rw [hcw, List.rtake, List.length_map]
    · rw [hcw, List.rtake, List.length_drop, List.length_map]
      omega

/-- Witness for C3 with 51 concrete cycles: both eviction thresholds are
crossed and both logs sit exactly at capacity. -/
theorem c3_witness :
    50 < (List.replicate 51 (sample_cycle "t1")).length ∧
    20 < (List.replicate 51 (sample_cycle "t1")).length ∧
    ((List.replicate 51 (sample_cycle "t1")).foldl update_memory
        (initial_memory "t0")).recent_actions.length = 50 ∧
    ((List.replicate 51 (sample_cycle "t1")).foldl update_memory
        (initial_memory "t0")).context_window.length = 20 :=
  ⟨by simp, by simp,
   ((c3_bounded_logs (List.replicate 51 (sample_cycle "t1")) "t0").2.2.1
     (by simp)).2,
   ((c3_bounded_logs (List.replicate 51 (sample_cycle "t1")) "t0").2.2.2
     (by simp)).2⟩

/-- Claim C6: a fully successful `execute_task` call drives the agent
state Idle, Thinking, Acting, Observing, Idle in that order; when the
think phase raises, the sequence is Idle, Thinking, Idle and the returned
outcome carries success false; and whatever the phases do, the agent's
state is Idle once the call returns. -/
theorem c6_state_machine (aid : String) (beh : AgentBehavior) (task : AgentTask)
    (mem : AgentMemory) (now : String) :
    (phases_all_ok beh task mem = true →
      AgentState.idle :: (execute_task aid beh task mem now).states_entered =
        [.idle, .thinking, .acting, .observing, .idle]) ∧
    (∀ e : String, beh.think (think_input task mem) = .error e →
      AgentState.idle :: (execute_task aid beh task mem now).states_entered =
        [.idle, .thinking, .idle] ∧
      dict_lookup (execute_task aid beh task mem now).outcome "success" =
        some (.pybool false)) ∧
    (execute_task aid beh task mem now).state = .idle := by
  refine ⟨?_, ?_, ?_⟩
  · intro h
    cases hth : beh.think (think_input task mem) with
    | error e =>
        exfalso
        unfold phases_all_ok at h
        simp only [hth] at h
        exact Bool.noConfusion h
    | ok thoughts =>
      cases hact : beh.act thoughts with
      | error e =>
          exfalso
          unfold phases_all_ok at h
          simp only [hth, hact] at h
          exact Bool.noConfusion h
      | ok result =>
        cases hobs : beh.observe result with
        | error e =>
            exfalso
            unfold phases_all_ok at h
            simp only [hth, hact, hobs] at h
            exact Bool.noConfusion h
        | ok learning => simp [execute_task, hth, hact, hobs]
  · intro e hth
    constructor
    · simp [execute_task, hth]
    · simp [execute_task, hth, fail_outcome, dict_lookup, alist_get]
  · cases hth : beh.think (think_input task mem) with
    | error e => simp [execute_task, hth]
    | ok thoughts =>
      cases hact : beh.act thoughts with
      | error e => simp [execute_task, hth, hact]
      | ok result =>
        cases hobs : beh.observe result with
        | error e => simp [execute_task, hth, hact, hobs]
        | ok learning => simp [execute_task, hth, hact, hobs]

/-- Witness for C6: the success trace at a concrete all-ok behavior, the
abort trace at a concrete failing behavior, and the final Idle state. -/
theorem c6_witness :
    (phases_all_ok ok_behavior sample_task (initial_memory "t0") = true ∧
      AgentState.idle :: (execute_task "business_analyst_001" ok_behavior
          sample_task (initial_memory "t0") "t1").states_entered =
        [.idle, .thinking, .acting, .observing, .idle]) ∧
    (failing_behavior.think (think_input sample_task (initial_memory "t0")) =
        .error "boom" ∧
      AgentState.idle :: (execute_task "business_analyst_001" failing_behavior
          sample_task (initial_memory "t0") "t1").states_entered =
        [.idle, .thinking, .idle]) ∧
    (execute_task "business_analyst_001" ok_behavior sample_task
        (initial_memory "t0") "t1").state = .idle :=
  ⟨⟨rfl,
    (c6_state_machine "business_analyst_001" ok_behavior sample_task
      (initial_memory "t0") "t1").1 rfl⟩,
   ⟨rfl,
    ((c6_state_machine "business_analyst_001" failing_behavior sample_task
      (initial_memory "t0") "t1").2.1 "boom" rfl).1⟩,
   (c6_state_machine "business_analyst_001" ok_behavior sample_task
     (initial_memory "t0") "t1").2.2⟩

/-- Claim C7: merging patterns and metrics into Memory is key-wise
overwrite-or-insert — after a merge, a key carried by the merged map
reads its new value and every other key falls through to the old mapping;
every memory update stamps `last_updated`; and the concrete sequence of
merging x:1 and then x:2, y:3 into a fresh memory leaves exactly
x:2, y:3 (same for the metrics m:1 then m:2, n:3). -/
theorem c7_merge_semantics (mem : AgentMemory) (ci : CycleInput)
    (pats mets : List (String × PyVal)) (k : String) :
    (dict_lookup ci.learning "patterns" = some (.pydict pats) → pats ≠ [] →
      (pats.map Prod.fst).Nodup →
      dict_lookup (update_memory mem ci).learned_patterns k =
        match dict_lookup pats k with
        | some v => some v
        | none => dict_lookup mem.learned_patterns k) ∧
    (dict_lookup ci.learning "metrics" = some (.pydict mets) → mets ≠ [] →
      (mets.map Prod.fst).Nodup →
      dict_lookup (update_memory mem ci).performance_metrics k =
        match dict_lookup mets k with
        | some v => some v
        | none => dict_lookup mem.performance_metrics k) ∧
    (update_memory mem ci).last_updated = ci.now ∧
    (update_memory (update_memory (initial_memory "t0") cycle_x1)
        cycle_x2y3).learned_patterns =
      [("x", .pyint 2), ("y", .pyint 3)] ∧
    (update_memory (update_memory (initial_memory "t0") cycle_x1)
        cycle_x2y3).performance_metrics =
      [("m", .pyint 2), ("n", .pyint 3)] := by
  refine ⟨?_, ?_, rfl, rfl, rfl⟩
  · intro hp hne hnd
    have hpat : patterns_of ci.learning = some pats := by
      unfold patterns_of
      simp only [hp]
      cases pats with
      | nil => exact absurd rfl hne
      | cons p ps => rfl
    show dict_lookup (match patterns_of ci.learning with
      | some pats => dict_update mem.learned_patterns pats
      | none => mem.learned_patterns) k = _
    rw [hpat]
    exact dict_update_lookup pats mem.learned_patterns hnd k
  · intro hm hne hnd
    have hmet : metrics_of ci.learning = some mets := by
      unfold metrics_of
      simp only [hm]
      cases mets with
      | nil => exact absurd rfl hne
      | cons p ps => rfl
    show dict_lookup (match metrics_of ci.learning with
      | some mets => dict_update mem.performance_metrics mets
      | none => mem.performance_metrics) k = _
    rw [hmet]
    exact dict_update_lookup mets mem.performance_metrics hnd k

/-- Witness for C7 at the concrete second merge: key x reads the new
value 2, key m reads the new metric 2. -/
theorem c7_witness :
    dict_lookup cycle_x2y3.learning "patterns" =
      some (.pydict [("x", .pyint 2), ("y", .pyint 3)]) ∧
    ([("x", PyVal.pyint 2), ("y", PyVal.pyint 3)] : List (String × PyVal)) ≠ [] ∧
    (([("x", PyVal.pyint 2), ("y", PyVal.pyint 3)] :
        List (String × PyVal)).map Prod.fst).Nodup ∧
    dict_lookup (update_memory (update_memory (initial_memory "t0") cycle_x1)
        cycle_x2y3).learned_patterns "x" =
      match dict_lookup [("x", PyVal.pyint 2), ("y", PyVal.pyint 3)] "x" with
      | some v => some v
      | none =>
          dict_lookup (update_memory (initial_memory "t0")
            cycle_x1).learned_patterns "x" :=
  ⟨rfl, by simp, by simp,
   (c7_merge_semantics (update_memory (initial_memory "t0") cycle_x1) cycle_x2y3
     [("x", PyVal.pyint 2), ("y", PyVal.pyint 3)]
     [("m", PyVal.pyint 2), ("n", PyVal.pyint 3)] "x").1 rfl (by simp) (by simp)⟩

/-- Routing never comes back empty: every branch of
`_select_agent_for_task` reads a role that the orchestrator registry
holds. -/
lemma select_agent_isSome (t : AgentTask) :
    (select_agent_for_task t).isSome = true := by
  unfold select_agent_for_task
  split
  · rfl
  · split
    · rfl
    · rfl

/-- Draining hands every queued task to exactly one agent, in queue
order, with the warning branch never taken and nothing left queued. -/
lemma process_tasks_spec (q : List AgentTask) :
    (process_tasks q).executed.map Prod.fst = q ∧
    (process_tasks q).warned = [] ∧
    (process_tasks q).remaining = [] := by
  induction q with
  | nil => exact ⟨rfl, rfl, rfl⟩
  | cons t rest ih =>
      cases hsel : select_agent_for_task t with
      | none =>
          exfalso
          have := select_agent_isSome t
          rw [hsel] at this
          exact Bool.noConfusion this
      | some a =>
          refine ⟨?_, ?_, ?_⟩
          · simp [process_tasks, hsel, ih.1]
          · simp [process_tasks, hsel, ih.2.1]
          · simp [process_tasks, hsel, ih.2.2]

/-- Enqueueing by repeated tail-append builds exactly the input sequence. -/
lemma foldl_add_task (ts : List AgentTask) :
    ∀ acc : List AgentTask, ts.foldl add_task acc = acc ++ ts := by
  induction ts with
  | nil => intro acc; simp
  | cons t ts ih =>
      intro acc
      rw [List.foldl_cons, ih]
      simp [add_task]

/-- Claim C4: routing lowercases the task type and matches substrings in
order — analysis/brief selects the business analyst, else lead/follow
selects the lead manager, else the business analyst is the default; on
the four named task types the routed agent ids are as the spec asserts. -/
theorem c4_routing (t : AgentTask) :
    ((str_contains_sub (lower_string t.type) "analysis" ||
        str_contains_sub (lower_string t.type) "brief") = true →
      select_agent_for_task t = some business_analyst_info) ∧
    ((str_contains_sub (lower_string t.type) "analysis" ||
        str_contains_sub (lower_string t.type) "brief") = false →
      (str_contains_sub (lower_string t.type) "lead" ||
        str_contains_sub (lower_string t.type) "follow") = true →
      select_agent_for_task t = some lead_manager_info) ∧
    ((str_contains_sub (lower_string t.type) "analysis" ||
        str_contains_sub (lower_string t.type) "brief") = false →
      (str_contains_sub (lower_string t.type) "lead" ||
        str_contains_sub (lower_string t.type) "follow") = false →
      select_agent_for_task t = some business_analyst_info) ∧
    select_agent_for_task (mk_task "t_ba" "business_analysis" 1) =
      some business_analyst_info ∧
    select_agent_for_task (mk_task "t_gb" "generate_brief" 1) =
      some business_analyst_info ∧
    select_agent_for_task (mk_task "t_lf" "lead_followup" 1) =
      some lead_manager_info ∧
    select_agent_for_task (mk_task "t_ux" "unknown_xyz" 1) =
      some business_analyst_info ∧
    business_analyst_info.agent_id = "business_analyst_001" ∧
    lead_manager_info.agent_id = "lead_manager_001" := by
  refine ⟨?_, ?_, ?_, rfl, rfl, rfl, rfl, rfl, rfl⟩
  · intro h1
    simp [select_agent_for_task, h1, registry_lookup, orchestrator_registry,
      alist_get]
  · intro h1 h2
    simp [select_agent_for_task, h1, h2, registry_lookup, orchestrator_registry,
      alist_get]
  · intro h1 h2
    simp [select_agent_for_task, h1, h2, registry_lookup, orchestrator_registry,
      alist_get]

/-- Witness for C4: each routing branch exercised at a concrete type. -/
theorem c4_witness :
    ((str_contains_sub (lower_string (mk_task "t_ba" "business_analysis" 1).type)
        "analysis" ||
      str_contains_sub (lower_string (mk_task "t_ba" "business_analysis" 1).type)
        "brief") = true ∧
      select_agent_for_task (mk_task "t_ba" "business_analysis" 1) =
        some business_analyst_info) ∧
    (select_agent_for_task (mk_task "t_lf" "lead_followup" 1) =
      some lead_manager_info) ∧
    (select_agent_for_task (mk_task "t_ux" "unknown_xyz" 1) =
      some business_analyst_info) :=
  ⟨⟨rfl, (c4_routing (mk_task "t_ba" "business_analysis" 1)).1 rfl⟩,
   (c4_routing (mk_task "t_lf" "lead_followup" 1)).2.1 rfl rfl,
   (c4_routing (mk_task "t_ux" "unknown_xyz" 1)).2.2.1 rfl rfl⟩

/-- Three tasks with out-of-order priorities, as in the spec's FIFO test. -/
def task_a : AgentTask := mk_task "A" "task_alpha" 3

/-- Second enqueued task, priority 1. -/
def task_b : AgentTask := mk_task "B" "task_beta" 1

/-- Third enqueued task, priority 2. -/
def task_c : AgentTask := mk_task "C" "task_gamma" 2

/-- Claim C5: enqueueing any task sequence and draining executes the
tasks in exact arrival order, ignoring priorities, and leaves the queue
empty; in particular A(priority 3), B(priority 1), C(priority 2) drain as
A, B, C. -/
theorem c5_fifo_queue (ts : List AgentTask) :
    (process_tasks (ts.foldl add_task [])).executed.map Prod.fst = ts ∧
    (process_tasks (ts.foldl add_task [])).remaining = [] ∧
    (process_tasks ([task_a, task_b, task_c].foldl add_task [])).executed.map
        (fun p => p.1.id) = ["A", "B", "C"] ∧
    task_a.priority = 3 ∧ task_b.priority = 1 ∧ task_c.priority = 2 := by
  rw [foldl_add_task ts [], List.nil_append]
  exact ⟨(process_tasks_spec ts).1, (process_tasks_spec ts).2.2, rfl, rfl, rfl, rfl⟩

/-- Claim C8 is false on the code: construct the orchestrator with every
dependency wiring failing — both agents are still registered, the
registry has its full size 2, and the business analyst sits in it with
both capability fields absent. -/
theorem c8_counterexample :
    (orchestrator_init (.error "conn refused") (.error "no creds")
        (.error "conn refused") (.error "no creds") "t0").length = 2 ∧
    (alist_get (orchestrator_init (.error "conn refused") (.error "no creds")
        (.error "conn refused") (.error "no creds") "t0")
      AgentRole.business_analyst).isSome = true ∧
    (alist_get (orchestrator_init (.error "conn refused") (.error "no creds")
        (.error "conn refused") (.error "no creds") "t0")
      AgentRole.lead_manager).isSome = true :=
  ⟨rfl, rfl, rfl⟩

/-- Claim C8 (amended): a wiring failure at construction is caught and
only logged — the Agent is still constructed (with its failed capability
fields left at None) and still registered, so the Orchestrator's registry
always holds both agents, whatever the wiring outcomes. -/
theorem c8_registration (ba_ai ba_sheets lm_ai lm_sheets : Except String String)
    (now : String) :
    (orchestrator_init ba_ai ba_sheets lm_ai lm_sheets now).length = 2 ∧
    (alist_get (orchestrator_init ba_ai ba_sheets lm_ai lm_sheets now)
      AgentRole.business_analyst).isSome = true ∧
    (alist_get (orchestrator_init ba_ai ba_sheets lm_ai lm_sheets now)
      AgentRole.lead_manager).isSome = true ∧
    (∀ e : String, ba_ai = .error e →
      (init_agent "business_analyst_001" .business_analyst ba_ai ba_sheets
          now).ai_client = none ∧
      (init_agent "business_analyst_001" .business_analyst ba_ai ba_sheets
          now).sheets_manager = none) := by
  refine ⟨rfl, rfl, rfl, ?_⟩
  intro e he
  subst he
  exact ⟨rfl, rfl⟩

/-- Witness for the amended C8 at failing wirings. -/
theorem c8_witness :
    (orchestrator_init (.error "conn refused") (.error "no creds")
        (.error "conn refused") (.error "no creds") "t0").length = 2 ∧
    (Except.error "conn refused" : Except String String) =
      .error "conn refused" ∧
    (init_agent "business_analyst_001" .business_analyst
        (.error "conn refused") (.error "no creds") "t0").ai_client = none :=
  ⟨(c8_registration (.error "conn refused") (.error "no creds")
      (.error "conn refused") (.error "no creds") "t0").1,
   rfl,
   ((c8_registration (.error "conn refused") (.error "no creds")
      (.error "conn refused") (.error "no creds") "t0").2.2.2
     "conn refused" rfl).1⟩

/-- The loop has completed exactly as many sleeps as iterations asked of
it: no iteration is ever the last by the loop's own choice. -/
lemma run_iterations_length (interval : Nat) (events : Nat → LoopEvent) :
    ∀ n : Nat, (run_iterations interval events n).length = n := by
  intro n
  induction n with
  | zero => rfl
  | succ n ih => simp [run_iterations, ih]

/-- Claim C9: the scheduling loop never terminates — after every
iteration, crash or not, the next iteration runs; an iteration whose
drain step raises sleeps the fixed 60 seconds, a clean iteration sleeps
the configured interval; and the body never selects the exit control. -/
theorem c9_loop_never_gives_up (interval : Nat) (events : Nat → LoopEvent)
    (n : Nat) :
    run_iterations interval events (n + 1) =
      run_iterations interval events n ++
        [iteration_sleep interval (events n)] ∧
    (run_iterations interval events n).length = n ∧
    (∀ e : String, iteration_sleep interval (.crash e) = 60) ∧
    iteration_sleep interval .ok = interval ∧
    (loop_body interval (events n)).2 = .cont := by
  refine ⟨rfl, run_iterations_length interval events n, fun e => rfl, rfl, ?_⟩
  cases events n with
  | ok => rfl
  | crash e => rfl

/-- Claim C10: routing always yields an agent — the None branch of
`process_tasks` ("No agent available") is unreachable, and every drained
task is handed to exactly one agent in queue order. -/
theorem c10_routing_total (t : AgentTask) (q : List AgentTask) :
    (select_agent_for_task t).isSome = true ∧
    (process_tasks q).warned = [] ∧
    (process_tasks q).executed.map Prod.fst = q :=
  ⟨select_agent_isSome t, (process_tasks_spec q).2.1, (process_tasks_spec q).1⟩

end Elizao
